import Mathlib

/-!
Verification of the media-analyzer validation engine and its
producer/consumer pipeline (`media_analyzer_app.py`) against its
natural-language specification.

The relevant Python code is shallowly embedded below:

* `get_media_details` (the per-file rule engine) becomes a pure Lean
  function.  The external collaborators — `os.path.getsize` and
  `MediaInfo.parse` — are modelled as oracle data carried by a
  `FileInput` record: the probe either fails with an exception message
  (Python `except Exception as e`) or returns the list of tracks.
  Raw probed attribute values are external data whose only use in the
  rules is the outcome of applying Python `float()` / `int()` to them,
  so they are embedded as those parse outcomes (`RawFloat`, `RawInt`);
  a `ValueError` is the `invalid` constructor.
* The worker thread / Tk polling loop becomes a small-step transition
  system (`PStep`, `CStep`) over explicit queue states, quantified over
  all interleavings of the producer and the consumer.
* The Treeview sort handler `sort_column` becomes a pure key function
  plus a stable sort modelling Python `list.sort`.
-/

/-- Outcome of applying Python `float()` to a probed raw attribute value
(the value itself is external pymediainfo data; only its parse outcome is
ever used by the rules).  `invalid` models a `ValueError`. -/
inductive RawFloat where
  | num (q : ℚ)
  | invalid
deriving DecidableEq, Repr

/-- Outcome of applying Python `int()` to a probed raw attribute value.
`invalid` models a `ValueError`. -/
inductive RawInt where
  | num (n : ℤ)
  | invalid
deriving DecidableEq, Repr

/-- One pymediainfo track.  `getattr(track, attr, None)` yields `none`
for an attribute the track does not carry.  `width`/`height` are the
integers pymediainfo reports; `frame_rate` is consumed through `float()`
and the bit rates and duration through `int()`, so those fields carry the
corresponding parse outcomes. -/
structure Track where
  track_type : String
  duration : Option RawInt := none
  width : Option Int := none
  height : Option Int := none
  frame_rate : Option RawFloat := none
  bit_rate : Option RawInt := none
deriving DecidableEq, Repr

/-- `next((t for t in media_info.tracks if t.track_type == ty), None)`. -/
def firstTrack (tracks : List Track) (ty : String) : Option Track :=
  tracks.find? (fun t => t.track_type == ty)

/-- The external world seen by `get_media_details(file_path)`:
`file_name` is `os.path.basename(file_path)`; `path_exists` and
`file_size` model `os.path.exists` / `os.path.getsize`; `parseResult`
is the outcome of `MediaInfo.parse` — `Except.error e` models the
`except Exception` path with `e = str(e)`. -/
structure FileInput where
  file_name : String
  path_exists : Bool
  file_size : ℕ
  parseResult : Except String (List Track)
deriving Repr

/-- A metadata field of a result row: Python `None`, a present value, or
the literal string `'Error'` written by the exception handler. -/
inductive Cell (α : Type) where
  | absent
  | val (a : α)
  | err
deriving DecidableEq, Repr

def Cell.ofOption : Option α → Cell α
  | none => Cell.absent
  | some a => Cell.val a

/-- The `details` dictionary returned by `get_media_details`. -/
structure Details where
  file_name : String
  file_size : Option ℕ
  duration : Cell RawInt
  width : Cell Int
  height : Cell Int
  frame_rate : Cell RawFloat
  bit_rate_video : Cell RawInt
  bit_rate_audio : Cell RawInt
  issues : List String
  simplified_issues : List String
  has_issues : Bool
  is_video : Bool
  is_image : Bool
deriving DecidableEq, Repr

/-- `VALID_WIDTHS = {540, 720, 960, 1080, 1280}` (membership-only set,
embedded as a list). -/
def VALID_WIDTHS : List Int := [540, 720, 960, 1080, 1280]

/-- `VALID_HEIGHTS = {540, 607, 720, 960, 1280, 1920}`. -/
def VALID_HEIGHTS : List Int := [540, 607, 720, 960, 1280, 1920]

/-- The `ISSUE_DESCRIPTIONS` dictionary. -/
def ISSUE_DESCRIPTIONS : List (String × String) :=
  [("文件名包含空格", "文件名空格"),
   ("帧率过低", "帧率低"),
   ("帧率数据无效", "帧率无效"),
   ("视频码率过低", "视码率低"),
   ("视频码率数据无效", "视码率无效"),
   ("音频码率过低", "音码率低"),
   ("音频码率数据无效", "音码率无效"),
   ("宽度不符合标准", "宽度异常"),
   ("高度不符合标准", "高度异常"),
   ("处理错误", "处理错误"),
   ("视频文件过大", "视频过大"),
   ("图片文件过大", "图片过大")]

/-- `ISSUE_DESCRIPTIONS.get(issue, issue)`. -/
def lookupD (l : List (String × String)) (k : String) : String :=
  match l.find? (fun p => p.1 == k) with
  | some p => p.2
  | none => k

/-- Python `c in s` for a single character (string membership). -/
def pyCharIn (c : Char) (s : String) : Bool :=
  s.data.contains c

/-- `full_width_chars_to_exclude`, duplicates preserved from the source. -/
def full_width_chars_to_exclude : List Char :=
  ['　', '，', '。', '；', '：', '（', '）', '【', '】', '（', '）']

/-- Python `s[:n]` on a string (a Python string is a char sequence). -/
def pySlice (s : String) (n : ℕ) : String :=
  String.mk (s.data.take n)

/-- Filename rule (source lines 107-110): a half-width space is an issue
unless the name contains any character of the full-width exclusion list. -/
def filename_issue (file_name : String) : List String :=
  if pyCharIn ' ' file_name
      && !(full_width_chars_to_exclude.any (fun c => pyCharIn c file_name)) then
    ["文件名包含空格"]
  else []

/-- Frame-rate rule (lines 112-117): `float(...) <= 20` is too low; a
`ValueError` is the distinct invalid-data issue. -/
def frame_rate_issue : Option RawFloat → List String
  | some (RawFloat.num q) => if q ≤ 20 then ["帧率过低"] else []
  | some RawFloat.invalid => ["帧率数据无效"]
  | none => []

/-- Video bit-rate rule (lines 119-125): `int(...) < 1000 * 1000`. -/
def bit_rate_video_issue : Option RawInt → List String
  | some (RawInt.num n) => if n < 1000 * 1000 then ["视频码率过低"] else []
  | some RawInt.invalid => ["视频码率数据无效"]
  | none => []

/-- Audio bit-rate rule (lines 127-133): `int(...) < 64 * 1000`. -/
def bit_rate_audio_issue : Option RawInt → List String
  | some (RawInt.num n) => if n < 64 * 1000 then ["音频码率过低"] else []
  | some RawInt.invalid => ["音频码率数据无效"]
  | none => []

/-- Width rule (lines 135-136): present and not in `VALID_WIDTHS`. -/
def width_issue : Option Int → List String
  | some w => if w ∉ VALID_WIDTHS then ["宽度不符合标准"] else []
  | none => []

/-- Height rule (lines 138-139): present and not in `VALID_HEIGHTS`. -/
def height_issue : Option Int → List String
  | some h => if h ∉ VALID_HEIGHTS then ["高度不符合标准"] else []
  | none => []

/-- File-size rule (lines 142-146): 60MB ceiling for videos, 150KB for
images, in the `if`/`elif` shape of the source. -/
def size_issue (fs : Option ℕ) (is_video is_image : Bool) : List String :=
  match fs with
  | none => []
  | some n =>
    if is_video ∧ n > 60 * 1024 * 1024 then ["视频文件过大"]
    else if is_image ∧ n > 150 * 1024 then ["图片文件过大"]
    else []

/-- `raw_issues` accumulated in source order (lines 106-146). -/
def raw_issues (file_name : String) (fr : Option RawFloat)
    (brv bra : Option RawInt) (w h : Option Int) (fs : Option ℕ)
    (is_video is_image : Bool) : List String :=
  filename_issue file_name ++ frame_rate_issue fr
    ++ bit_rate_video_issue brv ++ bit_rate_audio_issue bra
    ++ width_issue w ++ height_issue h ++ size_issue fs is_video is_image

/-- Width extraction (lines 93-100): from the video track if present,
else from the image track. -/
def pickWidth (video image : Option Track) : Option Int :=
  match video with
  | some v => v.width
  | none =>
    match image with
    | some i => i.width
    | none => none

/-- Height extraction, same shape as `pickWidth`. -/
def pickHeight (video image : Option Track) : Option Int :=
  match video with
  | some v => v.height
  | none =>
    match image with
    | some i => i.height
    | none => none

/-- Frame rate comes only from the video track (line 96). -/
def pickFrameRate (video : Option Track) : Option RawFloat :=
  match video with
  | some v => v.frame_rate
  | none => none

/-- Video bit rate comes only from the video track (line 97). -/
def pickBitRateVideo (video : Option Track) : Option RawInt :=
  match video with
  | some v => v.bit_rate
  | none => none

/-- Audio bit rate comes from the audio track (lines 102-103). -/
def pickBitRateAudio (audio : Option Track) : Option RawInt :=
  match audio with
  | some a => a.bit_rate
  | none => none

/-- Duration (lines 88-91): from the General track; if a video track is
present and duration is still `None`, from the video track. -/
def pickDuration (general video : Option Track) : Option RawInt :=
  let d0 : Option RawInt :=
    match general with
    | some g => g.duration
    | none => none
  match video, d0 with
  | some v, none => v.duration
  | _, d => d

/-- The successful branch of `get_media_details` (lines 77-154). -/
def ok_details (file_name : String) (fs : Option ℕ) (tracks : List Track) :
    Details :=
  let general := firstTrack tracks "General"
  let video := firstTrack tracks "Video"
  let image := firstTrack tracks "Image"
  let audio := firstTrack tracks "Audio"
  let is_video := video.isSome
  let is_image := !video.isSome && image.isSome
  let w := pickWidth video image
  let h := pickHeight video image
  let fr := pickFrameRate video
  let brv := pickBitRateVideo video
  let bra := pickBitRateAudio audio
  let issues := raw_issues file_name fr brv bra w h fs is_video is_image
  let simplified := issues.map (fun i => lookupD ISSUE_DESCRIPTIONS i)
  { file_name := file_name
    file_size := fs
    duration := Cell.ofOption (pickDuration general video)
    width := Cell.ofOption w
    height := Cell.ofOption h
    frame_rate := Cell.ofOption fr
    bit_rate_video := Cell.ofOption brv
    bit_rate_audio := Cell.ofOption bra
    issues := issues
    simplified_issues := simplified
    has_issues := !simplified.isEmpty
    is_video := is_video
    is_image := is_image }

/-- The `except Exception as e` branch (lines 156-163): one truncated
processing-error issue, `has_issues = True`, and every still-`None`
metadata field overwritten with the string `'Error'` (at this point all
six are still `None`, since they are only assigned after a successful
`MediaInfo.parse`). -/
def error_details (file_name : String) (fs : Option ℕ) (e : String) :
    Details :=
  { file_name := file_name
    file_size := fs
    duration := Cell.err
    width := Cell.err
    height := Cell.err
    frame_rate := Cell.err
    bit_rate_video := Cell.err
    bit_rate_audio := Cell.err
    issues := ["处理错误: " ++ pySlice e 50 ++ "..."]
    simplified_issues := [lookupD ISSUE_DESCRIPTIONS "处理错误"]
    has_issues := true
    is_video := false
    is_image := false }

/-- `get_media_details` (source lines 64-163). -/
def get_media_details (inp : FileInput) : Details :=
  let fs : Option ℕ := if inp.path_exists then some inp.file_size else none
  match inp.parseResult with
  | Except.error e => error_details inp.file_name fs e
  | Except.ok tracks => ok_details inp.file_name fs tracks

/-! ## Producer/consumer pipeline (worker thread + Tk polling loop)

`worker_process_files` dequeues paths FIFO from `file_queue`, evaluates
each with `get_media_details`, and appends the result to
`results_queue`; there is at most one worker (`start_processing_if_needed`),
so results are produced strictly in submission order.
`update_results_from_queue` drains `results_queue` FIFO, assigning
`display_order_counter` (initialised to 1) at drain time and ignoring
the counter value the worker put in the tuple.  The two threads
interleave arbitrarily; per-file processing delays only change the
interleaving, never the FIFO orders. -/

/-- State of one uncancelled run: pending paths, published but
undrained results, the table rows already assigned a sequence number,
and `display_order_counter`. -/
structure PState where
  fq : List String
  rq : List (String × Details)
  table : List (ℕ × String × Details)
  counter : ℕ
deriving DecidableEq, Repr

/-- Initial state after submitting `files` (counter starts at 1). -/
def pinit (files : List String) : PState :=
  { fq := files, rq := [], table := [], counter := 1 }

/-- One step of either thread: the worker processes the head of the
work queue, or the UI poll drains the head of the results queue and
assigns it the current counter. -/
inductive PStep (probe : String → FileInput) : PState → PState → Prop
  | worker (p : String) (rest : List String) (rq : List (String × Details))
      (table : List (ℕ × String × Details)) (counter : ℕ) :
      PStep probe
        { fq := p :: rest, rq := rq, table := table, counter := counter }
        { fq := rest, rq := rq ++ [(p, get_media_details (probe p))],
          table := table, counter := counter }
  | drain (fq : List String) (r : String × Details)
      (rest : List (String × Details))
      (table : List (ℕ × String × Details)) (counter : ℕ) :
      PStep probe
        { fq := fq, rq := r :: rest, table := table, counter := counter }
        { fq := fq, rq := rest, table := table ++ [(counter, r.1, r.2)],
          counter := counter + 1 }

/-- Reachability under arbitrary interleavings of the two threads. -/
inductive PReach (probe : String → FileInput) (s : PState) : PState → Prop
  | refl : PReach probe s s
  | tail {t u : PState} : PReach probe s t → PStep probe t u →
      PReach probe s u

/-- Results the worker publishes for a list of paths, in order. -/
def procd (probe : String → FileInput) (files : List String) :
    List (String × Details) :=
  files.map (fun p => (p, get_media_details (probe p)))

/-- Sequence numbers `start, start+1, ...` assigned down a result list. -/
def numbered (start : ℕ) : List (String × Details) → List (ℕ × String × Details)
  | [] => []
  | r :: rest => (start, r.1, r.2) :: numbered (start + 1) rest

/-- Pipeline invariant: some prefix of the submitted files is fully
drained into the table (numbered from 1), a following segment sits
processed in the results queue, and the rest is still queued work. -/
def PInv (probe : String → FileInput) (files : List String) (s : PState) :
    Prop :=
  ∃ k m : ℕ,
    s.table = numbered 1 (procd probe (files.take k))
    ∧ s.counter = 1 + k
    ∧ s.rq = procd probe ((files.drop k).take m)
    ∧ s.fq = (files.drop k).drop m

/-! ## Cancellation (stop_processing flag, worker exit, clear_table) -/

/-- State of a run under possible cancellation.  `inflight` is the path
the worker has dequeued but not yet published (the evaluation in
progress); `alive` is `processing_thread`'s liveness. -/
structure CState where
  fq : List String
  rq : List (String × Details)
  stop : Bool
  alive : Bool
  inflight : Option String
deriving DecidableEq, Repr

/-- A fresh run over `files`: worker started, flag cleared. -/
def cinit (files : List String) : CState :=
  { fq := files, rq := [], stop := false, alive := true, inflight := none }

/-- Interleaved steps: the worker loop re-checks queue emptiness and the
stop flag at the top of each iteration (`while not self.file_queue.empty()
and not self.stop_processing.is_set()`), dequeues, evaluates, publishes;
`cancel` is `stop_processing.set()`; `drain` is the UI poll consuming a
result. -/
inductive CStep (probe : String → FileInput) : CState → CState → Prop
  | take (p : String) (rest : List String) (rq : List (String × Details)) :
      CStep probe
        { fq := p :: rest, rq := rq, stop := false, alive := true,
          inflight := none }
        { fq := rest, rq := rq, stop := false, alive := true,
          inflight := some p }
  | finish (fq : List String) (rq : List (String × Details)) (stop : Bool)
      (p : String) :
      CStep probe
        { fq := fq, rq := rq, stop := stop, alive := true,
          inflight := some p }
        { fq := fq, rq := rq ++ [(p, get_media_details (probe p))],
          stop := stop, alive := true, inflight := none }
  | wexit (fq : List String) (rq : List (String × Details)) (stop : Bool)
      (h : stop = true ∨ fq = []) :
      CStep probe
        { fq := fq, rq := rq, stop := stop, alive := true, inflight := none }
        { fq := fq, rq := rq, stop := stop, alive := false, inflight := none }
  | cancel (fq : List String) (rq : List (String × Details)) (stop alive : Bool)
      (inflight : Option String) :
      CStep probe
        { fq := fq, rq := rq, stop := stop, alive := alive,
          inflight := inflight }
        { fq := fq, rq := rq, stop := true, alive := alive,
          inflight := inflight }
  | drain (fq : List String) (r : String × Details)
      (rest : List (String × Details)) (stop alive : Bool)
      (inflight : Option String) :
      CStep probe
        { fq := fq, rq := r :: rest, stop := stop, alive := alive,
          inflight := inflight }
        { fq := fq, rq := rest, stop := stop, alive := alive,
          inflight := inflight }

/-- Reachability for the cancellation machine. -/
inductive CReach (probe : String → FileInput) (s : CState) : CState → Prop
  | refl : CReach probe s s
  | tail {t u : CState} : CReach probe s t → CStep probe t u →
      CReach probe s u

/-- `clear_table` (lines 474-498): if the worker is alive it sets the
stop flag (after the confirmation dialog), then resets counters and
drains both queues without waiting for the worker to exit. -/
def clear_table (s : CState) : CState :=
  { fq := [], rq := [], stop := if s.alive then true else s.stop,
    alive := s.alive, inflight := s.inflight }

/-! ## File discovery (`select_files`, `_scan_folder_and_queue_files`) -/

/-- `allowed_extensions` from `_scan_folder_and_queue_files` (line 347).
Note it contains the audio extensions mp3/wav/aac/flac and no bmp/tiff. -/
def allowed_extensions : List String :=
  [".mp4", ".mkv", ".avi", ".mov", ".wmv", ".flv", ".webm",
   ".mp3", ".wav", ".aac", ".flac", ".jpg", ".jpeg", ".png", ".gif"]

/-- Python `str.lower()` (ASCII suffices for the extension test). -/
def pyLower (s : String) : String :=
  String.mk (s.data.map Char.toLower)

/-- Python `s.endswith(suffix)`. -/
def pyEndsWith (s suffix : String) : Bool :=
  suffix.data.isSuffixOf s.data

/-- `file.lower().endswith(allowed_extensions)` — the walk's filter. -/
def scanAccepts (file : String) : Bool :=
  allowed_extensions.any (fun ext => pyEndsWith (pyLower file) ext)

/-- `os.path.join`, modelled with a `/` separator. -/
def pathJoin (a b : String) : String := a ++ "/" ++ b

/-- `_scan_folder_and_queue_files` (lines 345-364) acting on the output
of `os.walk` (an external iterator yielding `(root_dir, files)` pairs):
every file passing the extension filter is joined to its directory and
enqueued, in walk order.  (The stop-flag early exits and the progress
status messages are modelled elsewhere / presentation-only.) -/
def scan_folder_and_queue_files (walk : List (String × List String)) :
    List String :=
  walk.flatMap (fun pr =>
    pr.2.filterMap (fun f =>
      if scanAccepts f then some (pathJoin pr.1 f) else none))

/-- Modelled from the spec: the extension allow-list the specification
claims for the directory walk — video mp4/mkv/avi/mov/wmv/flv/webm and
image jpg/jpeg/png/gif with the optional bmp/tiff included.  This is the
spec-side definition used only to compare against `allowed_extensions`. -/
def spec_allowed_extensions : List String :=
  [".mp4", ".mkv", ".avi", ".mov", ".wmv", ".flv", ".webm",
   ".jpg", ".jpeg", ".png", ".gif", ".bmp", ".tiff"]

/-- Spec-side filter built from `spec_allowed_extensions`. -/
def specAccepts (file : String) : Bool :=
  spec_allowed_extensions.any (fun ext => pyEndsWith (pyLower file) ext)

/-- `select_files` (lines 323-334): every explicitly chosen path is put
on the work queue unconditionally — no extension check. -/
def select_files (queued paths : List String) : List String :=
  queued ++ paths

/-! ## Treeview sorting (`sort_column`, lines 278-321) -/

/-- A secondary sort key as Python builds it: `float('-inf')`,
a finite float, `float('inf')`, or the string fallback kept when numeric
extraction fails (`except: secondary_sort_key = val_str`). -/
inductive SortKey where
  | neginf
  | num (q : ℚ)
  | posinf
  | strv (s : String)
deriving DecidableEq, Repr

/-- `c.isDigit` written out for clarity of the Python model. -/
def pyIsDigit (c : Char) : Bool :=
  decide ('0' ≤ c) && decide (c ≤ '9')

/-- Decimal value of a digit run. -/
def natOfDigits (cs : List Char) : ℕ :=
  cs.foldl (fun a c => a * 10 + (c.toNat - 48)) 0

/-- Model of Python `float()` on the decimal strings this app formats
into its table cells: optional surrounding spaces, an optional sign,
digits with at most one decimal point and at least one digit.
Exponents, `inf`/`nan` and underscores never occur in those cells and
are not modelled.  `none` is a `ValueError`. -/
def pyParseFloat (s : String) : Option ℚ :=
  let cs := ((s.data.dropWhile (fun c => c = ' ')).reverse.dropWhile
    (fun c => c = ' ')).reverse
  let sgn : ℤ :=
    match cs with
    | '-' :: _ => -1
    | _ => 1
  let cs2 :=
    match cs with
    | '-' :: rest => rest
    | '+' :: rest => rest
    | _ => cs
  let ip := cs2.takeWhile (fun c => c ≠ '.')
  let fp := (cs2.dropWhile (fun c => c ≠ '.')).drop 1
  if ip.all pyIsDigit ∧ fp.all pyIsDigit ∧ (ip ≠ [] ∨ fp ≠ []) then
    some (Rat.divInt
      (sgn * ((natOfDigits ip : ℤ) * (10 : ℤ) ^ fp.length
        + (natOfDigits fp : ℤ)))
      ((10 : ℤ) ^ fp.length))
  else none

/-- Model of Python `int()` on strings: optional surrounding spaces, an
optional sign, a nonempty digit run.  `none` is a `ValueError`. -/
def pyParseInt (s : String) : Option ℤ :=
  let cs := ((s.data.dropWhile (fun c => c = ' ')).reverse.dropWhile
    (fun c => c = ' ')).reverse
  let sgn : ℤ :=
    match cs with
    | '-' :: _ => -1
    | _ => 1
  let cs2 :=
    match cs with
    | '-' :: rest => rest
    | '+' :: rest => rest
    | _ => cs
  if cs2.all pyIsDigit ∧ cs2 ≠ [] then some (sgn * (natOfDigits cs2 : ℤ))
  else none

/-- `val_str.split()[0]`: first maximal run of non-space characters;
`none` models the `IndexError` on an all-space or empty string. -/
def firstToken (s : String) : Option String :=
  match (s.data.dropWhile (fun c => c = ' ')).takeWhile (fun c => c ≠ ' ') with
  | [] => none
  | cs => some (String.mk cs)

/-- The columns handled by the `file_size`/`width`/`height` branch. -/
def numeric_cols_a : List String := ["file_size", "width", "height"]

/-- The columns handled by the `duration`/`frame_rate`/bit-rate branch
(the two branches have identical bodies in the source). -/
def numeric_cols_b : List String :=
  ["duration", "frame_rate", "bit_rate_video", "bit_rate_audio"]

/-- Shared body of the two numeric-column branches (lines 296-307):
take the first whitespace token; `"N/A"`/`"Error"` become
`float('-inf') if reverse else float('inf')`; otherwise `float(...)`,
with the raw string kept as fallback on `ValueError`/`IndexError`. -/
def numeric_secondary_key (valStr : String) (reverse : Bool) : SortKey :=
  match firstToken valStr with
  | none => SortKey.strv valStr
  | some np =>
    if np = "N/A" ∨ np = "Error" then
      if reverse then SortKey.neginf else SortKey.posinf
    else
      match pyParseFloat np with
      | some q => SortKey.num q
      | none => SortKey.strv valStr

/-- `secondary_sort_key` (lines 292-307).  The `_num` branch maps any
unparseable value to `float('inf')` regardless of direction. -/
def secondary_sort_key (col valStr : String) (reverse : Bool) : SortKey :=
  if col = "_num" then
    match pyParseInt valStr with
    | some n => SortKey.num (n : ℚ)
    | none => SortKey.posinf
  else if col ∈ numeric_cols_a then numeric_secondary_key valStr reverse
  else if col ∈ numeric_cols_b then numeric_secondary_key valStr reverse
  else SortKey.strv valStr

/-- Strict comparison of two sort keys, as Python `<` on floats and on
strings.  A float/string comparison raises `TypeError` in Python (which
triggers the all-string fallback sort); such mixed pairs are
incomparable here and the theorems below stay within one kind. -/
def skLT : SortKey → SortKey → Bool
  | SortKey.neginf, SortKey.num _ => true
  | SortKey.neginf, SortKey.posinf => true
  | SortKey.num _, SortKey.posinf => true
  | SortKey.num a, SortKey.num b => decide (a < b)
  | SortKey.strv a, SortKey.strv b => decide (a < b)
  | _, _ => false

/-- A row as the sort sees it: the `problem_file` tag and the displayed
value of the column being sorted. -/
structure TreeRow where
  has_issues : Bool
  cell : String
deriving DecidableEq, Repr

/-- The tuple key `(primary_sort_key, secondary_sort_key)`:
`0 if has_issues else 1`, then the column key. -/
def rowKey (col : String) (reverse : Bool) (r : TreeRow) : ℕ × SortKey :=
  (if r.has_issues then 0 else 1, secondary_sort_key col r.cell reverse)

/-- Lexicographic strict order on the tuple keys. -/
def keyLT (a b : ℕ × SortKey) : Bool :=
  decide (a.1 < b.1) || (decide (a.1 = b.1) && skLT a.2 b.2)

/-- Stable insertion: place `x` after every element strictly below it,
before the first element not below it (earlier elements precede equal
later ones, as in Python's stable sort). -/
def pyInsert (lt : α → α → Bool) (x : α) : List α → List α
  | [] => [x]
  | y :: ys => if lt y x then y :: pyInsert lt x ys else x :: y :: ys

/-- Stable sort by a strict comparison, modelling `list.sort`. -/
def pySort (lt : α → α → Bool) : List α → List α
  | [] => []
  | x :: xs => pyInsert lt x (pySort lt xs)

/-- `sort_column` on the current rows: sort by `(primary, secondary)`,
with `reverse=True` giving the stable descending order. -/
def sort_column (col : String) (reverse : Bool) (rows : List TreeRow) :
    List TreeRow :=
  let lt := fun a b =>
    if reverse then keyLT (rowKey col reverse b) (rowKey col reverse a)
    else keyLT (rowKey col reverse a) (rowKey col reverse b)
  pySort lt rows

/-- A trivial concrete probe (file missing, empty track list), used to
instantiate the transition systems on concrete runs. -/
def probeW : String → FileInput :=
  fun _ => { file_name := "f.mp4", path_exists := false, file_size := 0,
             parseResult := Except.ok [] }

/-! ## Helper lemmas -/

/-- Reduce `get_media_details` on a successful probe. -/
theorem gmd_ok (inp : FileInput) (tracks : List Track)
    (hok : inp.parseResult = Except.ok tracks) :
    get_media_details inp
      = ok_details inp.file_name
          (if inp.path_exists then some inp.file_size else none) tracks := by
  simp only [get_media_details, hok]

/-- The issue list of the successful branch, in terms of the extraction
helpers. -/
theorem ok_details_issues (n : String) (fs : Option ℕ) (tracks : List Track) :
    (ok_details n fs tracks).issues
      = raw_issues n (pickFrameRate (firstTrack tracks "Video"))
          (pickBitRateVideo (firstTrack tracks "Video"))
          (pickBitRateAudio (firstTrack tracks "Audio"))
          (pickWidth (firstTrack tracks "Video") (firstTrack tracks "Image"))
          (pickHeight (firstTrack tracks "Video") (firstTrack tracks "Image"))
          fs (firstTrack tracks "Video").isSome
          (!(firstTrack tracks "Video").isSome
            && (firstTrack tracks "Image").isSome) := rfl

theorem mem_filename_issue {n x : String} (h : x ∈ filename_issue n) :
    x = "文件名包含空格" := by
  unfold filename_issue at h
  split at h <;> simp_all

theorem mem_frame_rate_issue {fr : Option RawFloat} {x : String}
    (h : x ∈ frame_rate_issue fr) : x = "帧率过低" ∨ x = "帧率数据无效" := by
  rcases fr with _ | r
  · simp [frame_rate_issue] at h
  · rcases r with q | _
    · unfold frame_rate_issue at h
      split at h <;> simp_all
    · simp [frame_rate_issue] at h
      exact Or.inr h

theorem mem_bit_rate_video_issue {brv : Option RawInt} {x : String}
    (h : x ∈ bit_rate_video_issue brv) :
    x = "视频码率过低" ∨ x = "视频码率数据无效" := by
  rcases brv with _ | r
  · simp [bit_rate_video_issue] at h
  · rcases r with n | _
    · unfold bit_rate_video_issue at h
      split at h <;> simp_all
    · simp [bit_rate_video_issue] at h
      exact Or.inr h

theorem mem_bit_rate_audio_issue {bra : Option RawInt} {x : String}
    (h : x ∈ bit_rate_audio_issue bra) :
    x = "音频码率过低" ∨ x = "音频码率数据无效" := by
  rcases bra with _ | r
  · simp [bit_rate_audio_issue] at h
  · rcases r with n | _
    · unfold bit_rate_audio_issue at h
      split at h <;> simp_all
    · simp [bit_rate_audio_issue] at h
      exact Or.inr h

theorem mem_width_issue {w : Option Int} {x : String}
    (h : x ∈ width_issue w) : x = "宽度不符合标准" := by
  rcases w with _ | n
  · simp [width_issue] at h
  · unfold width_issue at h
    split at h <;> simp_all

theorem mem_height_issue {w : Option Int} {x : String}
    (h : x ∈ height_issue w) : x = "高度不符合标准" := by
  rcases w with _ | n
  · simp [height_issue] at h
  · unfold height_issue at h
    split at h <;> simp_all

theorem mem_size_issue {fs : Option ℕ} {iv ii : Bool} {x : String}
    (h : x ∈ size_issue fs iv ii) :
    x = "视频文件过大" ∨ x = "图片文件过大" := by
  rcases fs with _ | n
  · simp [size_issue] at h
  · unfold size_issue at h
    split at h
    · simp_all
    · split at h <;> simp_all

/-- Membership in the accumulated issue list splits over the rule blocks. -/
theorem mem_raw_issues_iff (x n : String) (fr : Option RawFloat)
    (brv bra : Option RawInt) (w h : Option Int) (fs : Option ℕ)
    (iv ii : Bool) :
    x ∈ raw_issues n fr brv bra w h fs iv ii
      ↔ x ∈ filename_issue n ∨ x ∈ frame_rate_issue fr
        ∨ x ∈ bit_rate_video_issue brv ∨ x ∈ bit_rate_audio_issue bra
        ∨ x ∈ width_issue w ∨ x ∈ height_issue h
        ∨ x ∈ size_issue fs iv ii := by
  simp [raw_issues, List.mem_append, or_assoc]

/-- Counting splits over the rule blocks. -/
theorem count_raw_issues (x n : String) (fr : Option RawFloat)
    (brv bra : Option RawInt) (w h : Option Int) (fs : Option ℕ)
    (iv ii : Bool) :
    (raw_issues n fr brv bra w h fs iv ii).count x
      = (filename_issue n).count x + (frame_rate_issue fr).count x
        + (bit_rate_video_issue brv).count x + (bit_rate_audio_issue bra).count x
        + (width_issue w).count x + (height_issue h).count x
        + (size_issue fs iv ii).count x := by
  simp [raw_issues, List.count_append]
  omega

theorem count_filename_issue_eq_zero {x : String} (n : String)
    (hx : x ≠ "文件名包含空格") : (filename_issue n).count x = 0 :=
  List.count_eq_zero.mpr fun hm => hx (mem_filename_issue hm)

theorem count_frame_rate_issue_eq_zero {x : String} (fr : Option RawFloat)
    (h1 : x ≠ "帧率过低") (h2 : x ≠ "帧率数据无效") :
    (frame_rate_issue fr).count x = 0 :=
  List.count_eq_zero.mpr fun hm => (mem_frame_rate_issue hm).elim h1 h2

theorem count_bit_rate_video_issue_eq_zero {x : String} (brv : Option RawInt)
    (h1 : x ≠ "视频码率过低") (h2 : x ≠ "视频码率数据无效") :
    (bit_rate_video_issue brv).count x = 0 :=
  List.count_eq_zero.mpr fun hm => (mem_bit_rate_video_issue hm).elim h1 h2

theorem count_bit_rate_audio_issue_eq_zero {x : String} (bra : Option RawInt)
    (h1 : x ≠ "音频码率过低") (h2 : x ≠ "音频码率数据无效") :
    (bit_rate_audio_issue bra).count x = 0 :=
  List.count_eq_zero.mpr fun hm => (mem_bit_rate_audio_issue hm).elim h1 h2

theorem count_width_issue_eq_zero {x : String} (w : Option Int)
    (hx : x ≠ "宽度不符合标准") : (width_issue w).count x = 0 :=
  List.count_eq_zero.mpr fun hm => hx (mem_width_issue hm)

theorem count_height_issue_eq_zero {x : String} (h : Option Int)
    (hx : x ≠ "高度不符合标准") : (height_issue h).count x = 0 :=
  List.count_eq_zero.mpr fun hm => hx (mem_height_issue hm)

theorem count_size_issue_eq_zero {x : String} (fs : Option ℕ) (iv ii : Bool)
    (h1 : x ≠ "视频文件过大") (h2 : x ≠ "图片文件过大") :
    (size_issue fs iv ii).count x = 0 :=
  List.count_eq_zero.mpr fun hm => (mem_size_issue hm).elim h1 h2

/-- Issue list of a file whose probe reports a video track: all
video-sourced fields come from that track, `is_video` is true and
`is_image` is false. -/
theorem gmd_issues_video (inp : FileInput) (tracks : List Track) (v : Track)
    (hok : inp.parseResult = Except.ok tracks)
    (hv : firstTrack tracks "Video" = some v) :
    (get_media_details inp).issues
      = raw_issues inp.file_name v.frame_rate v.bit_rate
          (pickBitRateAudio (firstTrack tracks "Audio"))
          v.width v.height
          (if inp.path_exists then some inp.file_size else none)
          true false := by
  rw [gmd_ok inp tracks hok, ok_details_issues, hv]
  rfl

/-- Issue list of any successfully probed file, in extraction-helper form. -/
theorem gmd_issues_ok (inp : FileInput) (tracks : List Track)
    (hok : inp.parseResult = Except.ok tracks) :
    (get_media_details inp).issues
      = raw_issues inp.file_name (pickFrameRate (firstTrack tracks "Video"))
          (pickBitRateVideo (firstTrack tracks "Video"))
          (pickBitRateAudio (firstTrack tracks "Audio"))
          (pickWidth (firstTrack tracks "Video") (firstTrack tracks "Image"))
          (pickHeight (firstTrack tracks "Video") (firstTrack tracks "Image"))
          (if inp.path_exists then some inp.file_size else none)
          (firstTrack tracks "Video").isSome
          (!(firstTrack tracks "Video").isSome
            && (firstTrack tracks "Image").isSome) := by
  rw [gmd_ok inp tracks hok, ok_details_issues]

theorem isEmpty_map_eq (f : α → β) (l : List α) :
    (l.map f).isEmpty = l.isEmpty := by cases l <;> rfl

theorem ok_details_has_issues (n : String) (fs : Option ℕ)
    (tracks : List Track) :
    (ok_details n fs tracks).has_issues
      = !(ok_details n fs tracks).issues.isEmpty := by
  show (!((ok_details n fs tracks).issues.map
      (fun i => lookupD ISSUE_DESCRIPTIONS i)).isEmpty)
    = (!(ok_details n fs tracks).issues.isEmpty)
  rw [isEmpty_map_eq]

/-! ## Claim theorems -/

/-- C2: `get_media_details` never raises past its boundary (it is a total
function); any internal extraction error becomes a normal result with a
single processing-error issue whose embedded exception text is truncated
to at most 50 characters, the result is marked as having issues, and the
worker maps every submitted file — error files included — to exactly one
published result, so processing continues with the next file. -/
theorem C2_error_contained (name : String) (ex : Bool) (sz : ℕ) (e : String)
    (probe : String → FileInput) (files : List String) :
    (get_media_details ⟨name, ex, sz, Except.error e⟩).issues
        = ["处理错误: " ++ pySlice e 50 ++ "..."]
      ∧ (pySlice e 50).length ≤ 50
      ∧ (get_media_details ⟨name, ex, sz, Except.error e⟩).simplified_issues
        = ["处理错误"]
      ∧ (get_media_details ⟨name, ex, sz, Except.error e⟩).has_issues = true
      ∧ (procd probe files).length = files.length := by
  refine ⟨rfl, ?_, rfl, rfl, by simp [procd]⟩
  exact List.length_take_le 50 e.data

/-- C3: the problem status of every produced result — error path included —
is a pure function of its violation list: it is set exactly when the list
is nonempty, never independently.  (The code's severity lattice is the
binary clean/problem flag `has_issues`.) -/
theorem C3_status_function_of_violations (inp : FileInput) :
    (get_media_details inp).has_issues
      = !(get_media_details inp).issues.isEmpty := by
  rcases h : inp.parseResult with e | tracks
  · simp [get_media_details, h, error_details]
  · rw [gmd_ok inp tracks h]
    exact ok_details_has_issues _ _ tracks

/-- C4: for a probed frame rate that is present on the video track —
if it parses above 20 there is no frame-rate issue at all; if it parses
at or below 20 there is exactly one too-low issue and no invalid-data
issue; if it fails numeric parsing there is exactly one invalid-data
issue and no too-low issue.  The two variants are never conflated. -/
theorem C4_frame_rate_rule (inp : FileInput) (tracks : List Track) (v : Track)
    (hok : inp.parseResult = Except.ok tracks)
    (hv : firstTrack tracks "Video" = some v) :
    (∀ q : ℚ, v.frame_rate = some (RawFloat.num q) → 20 < q →
        "帧率过低" ∉ (get_media_details inp).issues
        ∧ "帧率数据无效" ∉ (get_media_details inp).issues)
    ∧ (∀ q : ℚ, v.frame_rate = some (RawFloat.num q) → q ≤ 20 →
        (get_media_details inp).issues.count "帧率过低" = 1
        ∧ "帧率数据无效" ∉ (get_media_details inp).issues)
    ∧ (v.frame_rate = some RawFloat.invalid →
        (get_media_details inp).issues.count "帧率数据无效" = 1
        ∧ "帧率过低" ∉ (get_media_details inp).issues) := by
  rw [gmd_issues_video inp tracks v hok hv]
  refine ⟨?_, ?_, ?_⟩
  · intro q hq h20
    rw [hq]
    constructor
    · refine List.count_eq_zero.mp ?_
      rw [count_raw_issues, count_filename_issue_eq_zero _ (by decide),
        count_bit_rate_video_issue_eq_zero _ (by decide) (by decide),
        count_bit_rate_audio_issue_eq_zero _ (by decide) (by decide),
        count_width_issue_eq_zero _ (by decide),
        count_height_issue_eq_zero _ (by decide),
        count_size_issue_eq_zero _ _ _ (by decide) (by decide)]
      simp [frame_rate_issue, if_neg (not_le.mpr h20)]
    · refine List.count_eq_zero.mp ?_
      rw [count_raw_issues, count_filename_issue_eq_zero _ (by decide),
        count_bit_rate_video_issue_eq_zero _ (by decide) (by decide),
        count_bit_rate_audio_issue_eq_zero _ (by decide) (by decide),
        count_width_issue_eq_zero _ (by decide),
        count_height_issue_eq_zero _ (by decide),
        count_size_issue_eq_zero _ _ _ (by decide) (by decide)]
      simp [frame_rate_issue, if_neg (not_le.mpr h20)]
  · intro q hq hle
    rw [hq]
    constructor
    · rw [count_raw_issues, count_filename_issue_eq_zero _ (by decide),
        count_bit_rate_video_issue_eq_zero _ (by decide) (by decide),
        count_bit_rate_audio_issue_eq_zero _ (by decide) (by decide),
        count_width_issue_eq_zero _ (by decide),
        count_height_issue_eq_zero _ (by decide),
        count_size_issue_eq_zero _ _ _ (by decide) (by decide)]
      simp [frame_rate_issue, if_pos hle]
    · refine List.count_eq_zero.mp ?_
      rw [count_raw_issues, count_filename_issue_eq_zero _ (by decide),
        count_bit_rate_video_issue_eq_zero _ (by decide) (by decide),
        count_bit_rate_audio_issue_eq_zero _ (by decide) (by decide),
        count_width_issue_eq_zero _ (by decide),
        count_height_issue_eq_zero _ (by decide),
        count_size_issue_eq_zero _ _ _ (by decide) (by decide)]
      simp [frame_rate_issue, if_pos hle]
  · intro hq
    rw [hq]
    constructor
    · rw [count_raw_issues, count_filename_issue_eq_zero _ (by decide),
        count_bit_rate_video_issue_eq_zero _ (by decide) (by decide),
        count_bit_rate_audio_issue_eq_zero _ (by decide) (by decide),
        count_width_issue_eq_zero _ (by decide),
        count_height_issue_eq_zero _ (by decide),
        count_size_issue_eq_zero _ _ _ (by decide) (by decide)]
      simp [frame_rate_issue]
    · refine List.count_eq_zero.mp ?_
      rw [count_raw_issues, count_filename_issue_eq_zero _ (by decide),
        count_bit_rate_video_issue_eq_zero _ (by decide) (by decide),
        count_bit_rate_audio_issue_eq_zero _ (by decide) (by decide),
        count_width_issue_eq_zero _ (by decide),
        count_height_issue_eq_zero _ (by decide),
        count_size_issue_eq_zero _ _ _ (by decide) (by decide)]
      simp [frame_rate_issue]

/-- C4 witness: a video probed at 15 fps gets exactly one too-low issue
and no invalid-data issue. -/
theorem C4_frame_rate_rule_witness :
    (get_media_details ⟨"w.mp4", false, 0,
        Except.ok [{ track_type := "Video"
                     frame_rate := some (RawFloat.num 15) }]⟩).issues.count
        "帧率过低" = 1
    ∧ "帧率数据无效" ∉ (get_media_details ⟨"w.mp4", false, 0,
        Except.ok [{ track_type := "Video"
                     frame_rate := some (RawFloat.num 15) }]⟩).issues :=
  (C4_frame_rate_rule ⟨"w.mp4", false, 0,
      Except.ok [{ track_type := "Video"
                   frame_rate := some (RawFloat.num 15) }]⟩
    [{ track_type := "Video", frame_rate := some (RawFloat.num 15) }]
    { track_type := "Video", frame_rate := some (RawFloat.num 15) }
    rfl rfl).2.1 15 rfl (by decide)

theorem mem_width_issue_iff (w : Option Int) :
    "宽度不符合标准" ∈ width_issue w
      ↔ ∃ x : Int, w = some x ∧ x ∉ VALID_WIDTHS := by
  rcases w with _ | x
  · simp [width_issue]
  · unfold width_issue
    split <;> simp_all

theorem mem_height_issue_iff (h : Option Int) :
    "高度不符合标准" ∈ height_issue h
      ↔ ∃ x : Int, h = some x ∧ x ∉ VALID_HEIGHTS := by
  rcases h with _ | x
  · simp [height_issue]
  · unfold height_issue
    split <;> simp_all

theorem mem_filename_issue_iff (n : String) :
    "文件名包含空格" ∈ filename_issue n
      ↔ (pyCharIn ' ' n
          && !(full_width_chars_to_exclude.any (fun c => pyCharIn c n)))
        = true := by
  unfold filename_issue
  split <;> simp_all

theorem mem_raw_issues_width (n : String) (fr : Option RawFloat)
    (brv bra : Option RawInt) (w h : Option Int) (fs : Option ℕ)
    (iv ii : Bool) :
    "宽度不符合标准" ∈ raw_issues n fr brv bra w h fs iv ii
      ↔ "宽度不符合标准" ∈ width_issue w := by
  rw [mem_raw_issues_iff]
  constructor
  · rintro (h1|h1|h1|h1|h1|h1|h1)
    · exact absurd (mem_filename_issue h1) (by decide)
    · rcases mem_frame_rate_issue h1 with h2|h2 <;> exact absurd h2 (by decide)
    · rcases mem_bit_rate_video_issue h1 with h2|h2 <;>
        exact absurd h2 (by decide)
    · rcases mem_bit_rate_audio_issue h1 with h2|h2 <;>
        exact absurd h2 (by decide)
    · exact h1
    · exact absurd (mem_height_issue h1) (by decide)
    · rcases mem_size_issue h1 with h2|h2 <;> exact absurd h2 (by decide)
  · intro h1
    exact Or.inr (Or.inr (Or.inr (Or.inr (Or.inl h1))))

theorem mem_raw_issues_height (n : String) (fr : Option RawFloat)
    (brv bra : Option RawInt) (w h : Option Int) (fs : Option ℕ)
    (iv ii : Bool) :
    "高度不符合标准" ∈ raw_issues n fr brv bra w h fs iv ii
      ↔ "高度不符合标准" ∈ height_issue h := by
  rw [mem_raw_issues_iff]
  constructor
  · rintro (h1|h1|h1|h1|h1|h1|h1)
    · exact absurd (mem_filename_issue h1) (by decide)
    · rcases mem_frame_rate_issue h1 with h2|h2 <;> exact absurd h2 (by decide)
    · rcases mem_bit_rate_video_issue h1 with h2|h2 <;>
        exact absurd h2 (by decide)
    · rcases mem_bit_rate_audio_issue h1 with h2|h2 <;>
        exact absurd h2 (by decide)
    · exact absurd (mem_width_issue h1) (by decide)
    · exact h1
    · rcases mem_size_issue h1 with h2|h2 <;> exact absurd h2 (by decide)
  · intro h1
    exact Or.inr (Or.inr (Or.inr (Or.inr (Or.inr (Or.inl h1)))))

theorem mem_raw_issues_space (n : String) (fr : Option RawFloat)
    (brv bra : Option RawInt) (w h : Option Int) (fs : Option ℕ)
    (iv ii : Bool) :
    "文件名包含空格" ∈ raw_issues n fr brv bra w h fs iv ii
      ↔ "文件名包含空格" ∈ filename_issue n := by
  rw [mem_raw_issues_iff]
  constructor
  · rintro (h1|h1|h1|h1|h1|h1|h1)
    · exact h1
    · rcases mem_frame_rate_issue h1 with h2|h2 <;> exact absurd h2 (by decide)
    · rcases mem_bit_rate_video_issue h1 with h2|h2 <;>
        exact absurd h2 (by decide)
    · rcases mem_bit_rate_audio_issue h1 with h2|h2 <;>
        exact absurd h2 (by decide)
    · exact absurd (mem_width_issue h1) (by decide)
    · exact absurd (mem_height_issue h1) (by decide)
    · rcases mem_size_issue h1 with h2|h2 <;> exact absurd h2 (by decide)
  · exact Or.inl

theorem count_size_issue_not_image (fs : Option ℕ) (iv : Bool) :
    (size_issue fs iv false).count "图片文件过大" = 0 :=
  List.count_eq_zero.mpr fun hm => by
    rcases fs with _ | nn
    · simp [size_issue] at hm
    · unfold size_issue at hm
      split at hm
      · simp at hm
      · split at hm <;> simp_all

/-- C5 counterexample: a recognized video whose probe reports no width
and no height receives no violation at all — in particular no
"no dimension info" Error — contradicting the claim that missing
dimensions on a file expected to have them are themselves reported. -/
theorem C5_counterexample :
    (get_media_details ⟨"video.mp4", false, 0,
        Except.ok [{ track_type := "Video" }]⟩).is_video = true
    ∧ (get_media_details ⟨"video.mp4", false, 0,
        Except.ok [{ track_type := "Video" }]⟩).width = Cell.absent
    ∧ (get_media_details ⟨"video.mp4", false, 0,
        Except.ok [{ track_type := "Video" }]⟩).height = Cell.absent
    ∧ (get_media_details ⟨"video.mp4", false, 0,
        Except.ok [{ track_type := "Video" }]⟩).issues = [] := by
  decide

/-- C5 (amended): the dimension rule flags exactly the files whose
extracted width (resp. height) is present and outside the allow-set;
a missing dimension produces no dimension violation. -/
theorem C5_dimension_rule (inp : FileInput) (tracks : List Track)
    (hok : inp.parseResult = Except.ok tracks) :
    ("宽度不符合标准" ∈ (get_media_details inp).issues
      ↔ ∃ x : Int,
          pickWidth (firstTrack tracks "Video") (firstTrack tracks "Image")
            = some x
          ∧ x ∉ VALID_WIDTHS)
    ∧ ("高度不符合标准" ∈ (get_media_details inp).issues
      ↔ ∃ x : Int,
          pickHeight (firstTrack tracks "Video") (firstTrack tracks "Image")
            = some x
          ∧ x ∉ VALID_HEIGHTS) := by
  rw [gmd_issues_ok inp tracks hok]
  constructor
  · rw [mem_raw_issues_width]
    exact mem_width_issue_iff _
  · rw [mem_raw_issues_height]
    exact mem_height_issue_iff _

/-- C5 witness: instantiation at a video track of width 999. -/
theorem C5_dimension_rule_witness :
    ("宽度不符合标准" ∈ (get_media_details ⟨"v.mp4", false, 0,
        Except.ok [{ track_type := "Video", width := some 999 }]⟩).issues
      ↔ ∃ x : Int,
          pickWidth
            (firstTrack [{ track_type := "Video", width := some 999 }] "Video")
            (firstTrack [{ track_type := "Video", width := some 999 }] "Image")
            = some x
          ∧ x ∉ VALID_WIDTHS) :=
  (C5_dimension_rule ⟨"v.mp4", false, 0,
      Except.ok [{ track_type := "Video", width := some 999 }]⟩
    [{ track_type := "Video", width := some 999 }] rfl).1

/-- C6 counterexample: the name `"a b，.mp4"` contains a half-width
space (which is not itself a member of the full-width punctuation set),
yet no filename violation is reported, because the code exempts the
whole name as soon as any full-width punctuation character appears
anywhere in it. -/
theorem C6_counterexample :
    pyCharIn ' ' "a b，.mp4" = true
    ∧ (' ' ∈ full_width_chars_to_exclude) = False
    ∧ (get_media_details ⟨"a b，.mp4", false, 0, Except.ok []⟩).issues
      = [] := by
  refine ⟨by decide, by simp [full_width_chars_to_exclude], by decide⟩

/-- C6 (amended): a filename violation is reported exactly when the name
contains a half-width space and does not contain any character of the
recognized full-width punctuation set — the exemption is keyed on the
whole name, not on the individual space; and a name without any
half-width space never yields the violation. -/
theorem C6_filename_space_rule (inp : FileInput) (tracks : List Track)
    (hok : inp.parseResult = Except.ok tracks) :
    ("文件名包含空格" ∈ (get_media_details inp).issues
      ↔ (pyCharIn ' ' inp.file_name
          && !(full_width_chars_to_exclude.any
                (fun c => pyCharIn c inp.file_name))) = true)
    ∧ (pyCharIn ' ' inp.file_name = false →
        "文件名包含空格" ∉ (get_media_details inp).issues) := by
  rw [gmd_issues_ok inp tracks hok]
  have hiff := (mem_raw_issues_space inp.file_name
    (pickFrameRate (firstTrack tracks "Video"))
    (pickBitRateVideo (firstTrack tracks "Video"))
    (pickBitRateAudio (firstTrack tracks "Audio"))
    (pickWidth (firstTrack tracks "Video") (firstTrack tracks "Image"))
    (pickHeight (firstTrack tracks "Video") (firstTrack tracks "Image"))
    (if inp.path_exists then some inp.file_size else none)
    (firstTrack tracks "Video").isSome
    (!(firstTrack tracks "Video").isSome
      && (firstTrack tracks "Image").isSome)).trans
    (mem_filename_issue_iff inp.file_name)
  refine ⟨hiff, ?_⟩
  intro h0 hm
  rw [hiff] at hm
  rw [h0] at hm
  simp at hm

/-- C6 witness: instantiation at a plain spaced name. -/
theorem C6_filename_space_rule_witness :
    ("文件名包含空格" ∈ (get_media_details ⟨"a b.mp4", false, 0,
        Except.ok []⟩).issues
      ↔ (pyCharIn ' ' "a b.mp4"
          && !(full_width_chars_to_exclude.any
                (fun c => pyCharIn c "a b.mp4"))) = true) :=
  (C6_filename_space_rule ⟨"a b.mp4", false, 0, Except.ok []⟩ [] rfl).1

/-- C10: a file whose probe reports a video track — even together with an
image track — is classified as video only: `is_image` is false, the
displayed width/height/frame-rate/video-bitrate come from the video
track, and the 150KB image size ceiling can never fire for it. -/
theorem C10_video_image_exclusive (inp : FileInput) (tracks : List Track)
    (v : Track) (hok : inp.parseResult = Except.ok tracks)
    (hv : firstTrack tracks "Video" = some v) :
    (get_media_details inp).is_video = true
    ∧ (get_media_details inp).is_image = false
    ∧ (get_media_details inp).width = Cell.ofOption v.width
    ∧ (get_media_details inp).height = Cell.ofOption v.height
    ∧ (get_media_details inp).frame_rate = Cell.ofOption v.frame_rate
    ∧ (get_media_details inp).bit_rate_video = Cell.ofOption v.bit_rate
    ∧ "图片文件过大" ∉ (get_media_details inp).issues := by
  rw [gmd_ok inp tracks hok]
  refine ⟨?_, ?_, ?_, ?_, ?_, ?_, ?_⟩
  · show (firstTrack tracks "Video").isSome = true
    rw [hv]
    rfl
  · show (!(firstTrack tracks "Video").isSome
        && (firstTrack tracks "Image").isSome) = false
    rw [hv]
    rfl
  · show Cell.ofOption
        (pickWidth (firstTrack tracks "Video") (firstTrack tracks "Image"))
      = Cell.ofOption v.width
    rw [hv]
    rfl
  · show Cell.ofOption
        (pickHeight (firstTrack tracks "Video") (firstTrack tracks "Image"))
      = Cell.ofOption v.height
    rw [hv]
    rfl
  · show Cell.ofOption (pickFrameRate (firstTrack tracks "Video"))
      = Cell.ofOption v.frame_rate
    rw [hv]
    rfl
  · show Cell.ofOption (pickBitRateVideo (firstTrack tracks "Video"))
      = Cell.ofOption v.bit_rate
    rw [hv]
    rfl
  · rw [ok_details_issues, hv]
    show "图片文件过大" ∉ raw_issues inp.file_name v.frame_rate v.bit_rate
      (pickBitRateAudio (firstTrack tracks "Audio")) v.width v.height
      (if inp.path_exists then some inp.file_size else none) true false
    refine List.count_eq_zero.mp ?_
    rw [count_raw_issues, count_filename_issue_eq_zero _ (by decide),
      count_frame_rate_issue_eq_zero _ (by decide) (by decide),
      count_bit_rate_video_issue_eq_zero _ (by decide) (by decide),
      count_bit_rate_audio_issue_eq_zero _ (by decide) (by decide),
      count_width_issue_eq_zero _ (by decide),
      count_height_issue_eq_zero _ (by decide),
      count_size_issue_not_image _ _]

/-- C10 witness: a probe reporting both a Video and an Image track, on a
200KB file — over the image ceiling, under the video ceiling. -/
theorem C10_video_image_exclusive_witness :
    (get_media_details ⟨"both.mp4", true, 200 * 1024,
        Except.ok [{ track_type := "Video", width := some 720 },
          { track_type := "Image", width := some 100 }]⟩).is_image = false
    ∧ "图片文件过大" ∉ (get_media_details ⟨"both.mp4", true, 200 * 1024,
        Except.ok [{ track_type := "Video", width := some 720 },
          { track_type := "Image", width := some 100 }]⟩).issues :=
  ⟨(C10_video_image_exclusive ⟨"both.mp4", true, 200 * 1024,
      Except.ok [{ track_type := "Video", width := some 720 },
        { track_type := "Image", width := some 100 }]⟩
    [{ track_type := "Video", width := some 720 },
     { track_type := "Image", width := some 100 }]
    { track_type := "Video", width := some 720 } rfl rfl).2.1,
   (C10_video_image_exclusive ⟨"both.mp4", true, 200 * 1024,
      Except.ok [{ track_type := "Video", width := some 720 },
        { track_type := "Image", width := some 100 }]⟩
    [{ track_type := "Video", width := some 720 },
     { track_type := "Image", width := some 100 }]
    { track_type := "Video", width := some 720 } rfl rfl).2.2.2.2.2.2⟩

/-- C8 counterexample: the recursive walk enqueues `song.mp3`, whose
extension belongs to neither the claimed video list nor the claimed image
list (even with the optional bmp/tiff included) — the code's allow-list
additionally contains the audio extensions mp3/wav/aac/flac. -/
theorem C8_counterexample :
    scan_folder_and_queue_files [("d", ["song.mp3"])]
        = [pathJoin "d" "song.mp3"]
    ∧ scanAccepts "song.mp3" = true
    ∧ specAccepts "song.mp3" = false := by
  decide

/-- C8 (amended): the directory walk enqueues exactly the files whose
lowercased name ends in one of the extensions of `allowed_extensions`
(mp4/mkv/avi/mov/wmv/flv/webm, mp3/wav/aac/flac, jpg/jpeg/png/gif — audio
included, bmp/tiff absent), joined to their directory, while explicitly
selected files are enqueued unconditionally, bypassing the filter. -/
theorem C8_discovery_filter (walk : List (String × List String))
    (p : String) (queued paths : List String) :
    (p ∈ scan_folder_and_queue_files walk
      ↔ ∃ pr ∈ walk, ∃ f ∈ pr.2, scanAccepts f = true ∧ p = pathJoin pr.1 f)
    ∧ select_files queued paths = queued ++ paths := by
  constructor
  · constructor
    · intro hp
      rcases List.mem_flatMap.1 hp with ⟨pr, hpr, hmem⟩
      rcases List.mem_filterMap.1 hmem with ⟨f, hf, hsome⟩
      by_cases hacc : scanAccepts f = true
      · rw [if_pos hacc] at hsome
        exact ⟨pr, hpr, f, hf, hacc, (Option.some_inj.1 hsome).symm⟩
      · rw [if_neg hacc] at hsome
        cases hsome
    · rintro ⟨pr, hpr, f, hf, hacc, rfl⟩
      exact List.mem_flatMap.2
        ⟨pr, hpr, List.mem_filterMap.2 ⟨f, hf, by rw [if_pos hacc]⟩⟩
  · rfl

/-- C9 counterexample: sorting the width column in ascending order with
one clean row of width 720 and one problem row whose width cell reads
`"Error"` (numeric parsing fails) places the unparseable row FIRST, not
at the end of the view: the primary sort key is the issue status, which
dominates the `float('inf')` secondary key. -/
theorem C9_counterexample :
    sort_column "width" false
        [{ has_issues := false, cell := "720" },
         { has_issues := true, cell := "Error" }]
      = [{ has_issues := true, cell := "Error" },
         { has_issues := false, cell := "720" }]
    ∧ pyParseFloat "Error" = none
    ∧ pyParseFloat "720" = some 720 := by
  decide

/-- C9 (amended): for the seven numeric value columns, an `"N/A"` or
`"Error"` cell gets the extreme secondary key appropriate to the sort
direction (`+inf` ascending, `-inf` descending), strictly beyond every
numerically parsed key, so such rows group at the end of their
issue-status group — but only within that group, since the primary key
is issue status; and the sequence-number column maps every unparseable
cell to `+inf` regardless of direction. -/
theorem C9_unparseable_sort_keys (col : String)
    (hcol : col ∈ numeric_cols_a ∨ col ∈ numeric_cols_b) (reverse : Bool) :
    (secondary_sort_key col "N/A" reverse
        = (if reverse then SortKey.neginf else SortKey.posinf))
    ∧ (secondary_sort_key col "Error" reverse
        = (if reverse then SortKey.neginf else SortKey.posinf))
    ∧ (∀ v : String, ∀ q : ℚ,
        secondary_sort_key col v reverse = SortKey.num q →
          (reverse = false → skLT (SortKey.num q) SortKey.posinf = true)
          ∧ (reverse = true → skLT SortKey.neginf (SortKey.num q) = true))
    ∧ (∀ v : String, pyParseInt v = none →
        secondary_sort_key "_num" v reverse = SortKey.posinf) := by
  refine ⟨?_, ?_, ?_, ?_⟩
  · rcases hcol with h | h <;> fin_cases h <;> cases reverse <;> decide
  · rcases hcol with h | h <;> fin_cases h <;> cases reverse <;> decide
  · intro v q hv
    exact ⟨fun _ => rfl, fun _ => rfl⟩
  · intro v hv
    simp [secondary_sort_key, hv]

/-- C9 witness: instantiation at the width column, ascending. -/
theorem C9_unparseable_sort_keys_witness :
    (secondary_sort_key "width" "N/A" false
        = (if false then SortKey.neginf else SortKey.posinf))
    ∧ (secondary_sort_key "width" "Error" false
        = (if false then SortKey.neginf else SortKey.posinf))
    ∧ (∀ v : String, ∀ q : ℚ,
        secondary_sort_key "width" v false = SortKey.num q →
          (false = false → skLT (SortKey.num q) SortKey.posinf = true)
          ∧ (false = true → skLT SortKey.neginf (SortKey.num q) = true))
    ∧ (∀ v : String, pyParseInt v = none →
        secondary_sort_key "_num" v false = SortKey.posinf) :=
  C9_unparseable_sort_keys "width" (Or.inl (by decide)) false

theorem procd_append (probe : String → FileInput) (xs ys : List String) :
    procd probe (xs ++ ys) = procd probe xs ++ procd probe ys :=
  List.map_append _ xs ys

theorem drop_cons_take_succ {α : Type} {l : List α} {m : ℕ} {p : α}
    {rest : List α} (hd : l.drop m = p :: rest) :
    l.take (m + 1) = l.take m ++ [p] ∧ l.drop (m + 1) = rest := by
  induction m generalizing l with
  | zero =>
    simp only [List.drop_zero] at hd
    simp [hd]
  | succ k ih =>
    cases l with
    | nil => simp at hd
    | cons a as =>
      have hd2 : as.drop k = p :: rest := by simpa using hd
      have h2 := ih hd2
      constructor
      · simp only [List.take_succ_cons, h2.1, List.cons_append]
      · simpa using h2.2

theorem lt_length_of_drop_cons {α : Type} {l : List α} {k : ℕ} {p : α}
    {rest : List α} (hd : l.drop k = p :: rest) : k < l.length := by
  by_contra hk
  push_neg at hk
  rw [List.drop_eq_nil_of_le hk] at hd
  cases hd

theorem numbered_append (s : ℕ) (xs ys : List (String × Details)) :
    numbered s (xs ++ ys) = numbered s xs ++ numbered (s + xs.length) ys := by
  induction xs generalizing s with
  | nil => simp [numbered]
  | cons a as ih =>
    have h3 : s + 1 + as.length = s + (as.length + 1) := by omega
    calc numbered s ((a :: as) ++ ys)
        = (s, a.1, a.2) :: numbered (s + 1) (as ++ ys) := rfl
      _ = (s, a.1, a.2)
            :: (numbered (s + 1) as ++ numbered (s + 1 + as.length) ys) := by
          rw [ih (s + 1)]
      _ = numbered s (a :: as) ++ numbered (s + (a :: as).length) ys := by
          rw [h3]
          rfl

theorem numbered_map_fst (s : ℕ) (rs : List (String × Details)) :
    (numbered s rs).map (fun e => e.1) = List.range' s rs.length := by
  induction rs generalizing s with
  | nil => simp [numbered]
  | cons a as ih => simp [numbered, ih, List.range'_succ]

theorem numbered_map_path (s : ℕ) (probe : String → FileInput)
    (files : List String) :
    (numbered s (procd probe files)).map (fun e => e.2.1) = files := by
  induction files generalizing s with
  | nil => rfl
  | cons a as ih =>
    simp only [procd] at ih ⊢
    simp [numbered, ih]

theorem pinv_step (probe : String → FileInput) (files : List String)
    {s t : PState} (hs : PInv probe files s) (hstep : PStep probe s t) :
    PInv probe files t := by
  rcases hs with ⟨k, m, htab, hcnt, hrq, hfq⟩
  cases hstep with
  | worker p rest rq table counter =>
    simp only at htab hcnt hrq hfq
    have hd : (files.drop k).drop m = p :: rest := hfq.symm
    refine ⟨k, m + 1, htab, hcnt, ?_, ?_⟩
    · show rq ++ [(p, get_media_details (probe p))]
        = procd probe ((files.drop k).take (m + 1))
      rw [(drop_cons_take_succ hd).1, procd_append, hrq]
      rfl
    · exact ((drop_cons_take_succ hd).2).symm
  | drain fq r rest table counter =>
    simp only at htab hcnt hrq hfq
    -- the results queue is a processed segment; peel its head
    rcases hm : (files.drop k).take m with _ | ⟨p0, t0⟩
    · rw [hm] at hrq
      cases hrq
    · rw [hm] at hrq
      have hr : r = (p0, get_media_details (probe p0))
          ∧ rest = procd probe t0 := by
        have : r :: rest
            = (p0, get_media_details (probe p0)) :: procd probe t0 := hrq
        exact ⟨by injection this, by injection this⟩
      rcases hr with ⟨hr1, hr2⟩
      -- take m produced a cons, so the dropped list is a cons and m ≥ 1
      cases mzero : m with
      | zero => rw [mzero] at hm; cases hm
      | succ m2 =>
        rw [mzero] at hm
        rcases hL : files.drop k with _ | ⟨a, L2⟩
        · rw [hL] at hm; cases hm
        · rw [hL] at hm
          have ha : a = p0 ∧ t0 = L2.take m2 := by
            rw [List.take_succ_cons] at hm
            injection hm with h1 h2
            exact ⟨h1, h2.symm⟩
          have hdk : files.drop k = p0 :: L2 := by rw [hL, ha.1]
          have hkd := drop_cons_take_succ hdk
          have hklen : k < files.length := lt_length_of_drop_cons hdk
          refine ⟨k + 1, m2, ?_, ?_, ?_, ?_⟩
          · show table ++ [(counter, r.1, r.2)]
              = numbered 1 (procd probe (files.take (k + 1)))
            rw [hkd.1, procd_append, numbered_append, htab]
            have hlen : (procd probe (files.take k)).length = k := by
              simp [procd, List.length_take]
              omega
            rw [hlen, hr1, hcnt]
            rfl
          · show counter + 1 = 1 + (k + 1)
            omega
          · show rest = procd probe ((files.drop (k + 1)).take m2)
            rw [hkd.2, hr2, ha.2]
          · show fq = (files.drop (k + 1)).drop m2
            rw [hkd.2, hfq, hL, mzero]
            simp

theorem pinv_reach (probe : String → FileInput) (files : List String)
    {s t : PState} (hr : PReach probe s t) (hs : PInv probe files s) :
    PInv probe files t := by
  induction hr with
  | refl => exact hs
  | tail hr hstep ih => exact pinv_step probe files ih hstep

/-- C1: in every interleaving of the single worker and the polling
consumer — per-file processing delays only vary the interleaving — once
all submitted files are processed and drained, the table rows carry the
sequence numbers 1, 2, …, n in exactly the order the files were
submitted: position i of the submission list got sequence number i+1.
In particular the numbers are unique and strictly increasing in
submission order, independent of completion timing. -/
theorem C1_sequence_numbers (probe : String → FileInput)
    (files : List String) (s : PState)
    (hreach : PReach probe (pinit files) s)
    (hfq : s.fq = []) (hrq : s.rq = []) :
    s.table = numbered 1 (procd probe files)
    ∧ s.table.map (fun e => e.1) = List.range' 1 files.length
    ∧ s.table.map (fun e => e.2.1) = files := by
  have hinv := pinv_reach probe files hreach ⟨0, 0, rfl, rfl, rfl, rfl⟩
  rcases hinv with ⟨k, m, htab, hcnt, hrqe, hfqe⟩
  have hLnil : files.drop k = [] := by
    rcases hL : files.drop k with _ | ⟨p, tl⟩
    · rfl
    · exfalso
      rw [hL] at hrqe hfqe
      cases m with
      | zero =>
        rw [hfqe] at hfq
        simp at hfq
      | succ m2 =>
        rw [List.take_succ_cons] at hrqe
        rw [hrqe] at hrq
        cases hrq
  have hk : files.length ≤ k := by
    by_contra hlt
    push_neg at hlt
    have := List.drop_eq_nil_iff.1 hLnil
    omega
  have htake : files.take k = files := List.take_of_length_le hk
  refine ⟨?_, ?_, ?_⟩
  · rw [htab, htake]
  · rw [htab, htake, numbered_map_fst]
    congr 1
    simp [procd]
  · rw [htab, htake]
    exact numbered_map_path 1 probe files

/-- C1 witness: submitting `["a", "b"]` and running
worker, worker, drain, drain ends with the table paths in submission
order bearing numbers 1 and 2. -/
theorem C1_sequence_numbers_witness :
    ({ fq := [], rq := [],
       table := numbered 1 (procd probeW ["a", "b"]),
       counter := 3 } : PState).table.map (fun e => e.2.1) = ["a", "b"]
    ∧ ({ fq := [], rq := [],
         table := numbered 1 (procd probeW ["a", "b"]),
         counter := 3 } : PState).table.map (fun e => e.1)
      = List.range' 1 2 := by
  have h0 : PReach probeW (pinit ["a", "b"]) (pinit ["a", "b"]) :=
    PReach.refl
  have h1 := PReach.tail h0
    (@PStep.worker probeW "a" ["b"] [] [] 1)
  have h2 := PReach.tail h1
    (@PStep.worker probeW "b" []
      ([] ++ [("a", get_media_details (probeW "a"))]) [] 1)
  have h3 := PReach.tail h2
    (@PStep.drain probeW []
      ("a", get_media_details (probeW "a"))
      [("b", get_media_details (probeW "b"))] [] 1)
  have h4 := PReach.tail h3
    (@PStep.drain probeW []
      ("b", get_media_details (probeW "b"))
      [] ([] ++ [(1, "a", get_media_details (probeW "a"))]) 2)
  have hmain := C1_sequence_numbers probeW ["a", "b"]
    { fq := [], rq := [],
      table := numbered 1 (procd probeW ["a", "b"]), counter := 3 }
    (by exact h4) rfl rfl
  exact ⟨hmain.2.2, hmain.2.1⟩

/-- C7 counterexample: submit `["A", "B"]`, let the worker dequeue and
finish `"A"`, request cancellation, and let the worker observe the flag
and exit.  Cancellation has been requested and the worker has stopped,
yet the WorkQueue still holds `"B"` — it is not empty.  (Queued items
are only discarded later, by `clear_table`.) -/
theorem C7_counterexample :
    CReach probeW (cinit ["A", "B"])
      { fq := ["B"], rq := [("A", get_media_details (probeW "A"))],
        stop := true, alive := false, inflight := none }
    ∧ (["B"] : List String) ≠ [] := by
  constructor
  · have h0 : CReach probeW (cinit ["A", "B"]) (cinit ["A", "B"]) :=
      CReach.refl
    have h1 := CReach.tail h0 (@CStep.take probeW "A" ["B"] [])
    have h2 := CReach.tail h1
      (@CStep.finish probeW ["B"] [] false "A")
    have h3 := CReach.tail h2
      (@CStep.cancel probeW ["B"]
        ([] ++ [("A", get_media_details (probeW "A"))]) false true none)
    have h4 := CReach.tail h3
      (@CStep.wexit probeW ["B"]
        ([] ++ [("A", get_media_details (probeW "A"))]) true (Or.inl rfl))
    exact h4
  · simp

/-- C7 (amended): once the worker has stopped, no step of the system
revives it or publishes a new Verdict — the ResultQueue only ever loses
elements (every remaining element was already there) — and `clear_table`
leaves both queues empty, so a run started after the worker has stopped
begins clean.  The WorkQueue, however, may retain unprocessed items
between cancellation and the clear. -/
theorem C7_cancellation (probe : String → FileInput) (s t : CState)
    (halive : s.alive = false) (hstep : CStep probe s t) :
    (t.alive = false ∧ t.rq.length ≤ s.rq.length
      ∧ (∀ r, r ∈ t.rq → r ∈ s.rq))
    ∧ ((clear_table s).fq = [] ∧ (clear_table s).rq = []) := by
  refine ⟨?_, rfl, rfl⟩
  cases hstep with
  | take p rest rq => exact absurd halive (by simp)
  | finish fq rq stop p => exact absurd halive (by simp)
  | wexit fq rq stop h => exact absurd halive (by simp)
  | cancel fq rq stop alive inflight =>
    exact ⟨halive, le_refl _, fun r hr => hr⟩
  | drain fq r rest stop alive inflight =>
    exact ⟨halive, by simp, fun x hx => List.mem_cons_of_mem _ hx⟩

/-- C7 witness: the polling consumer draining one already-published
Verdict after the worker has stopped. -/
theorem C7_cancellation_witness :
    ((CState.mk [] [] true false none).alive = false
      ∧ (CState.mk [] [] true false none).rq.length
        ≤ (CState.mk [] [("A", get_media_details (probeW "A"))] true false
            none).rq.length
      ∧ (∀ r, r ∈ (CState.mk [] [] true false none).rq →
          r ∈ (CState.mk [] [("A", get_media_details (probeW "A"))] true false
            none).rq))
    ∧ ((clear_table (CState.mk [] [("A", get_media_details (probeW "A"))] true
          false none)).fq = []
      ∧ (clear_table (CState.mk [] [("A", get_media_details (probeW "A"))] true
          false none)).rq = []) :=
  C7_cancellation probeW
    (CState.mk [] [("A", get_media_details (probeW "A"))] true false none)
    (CState.mk [] [] true false none)
    rfl
    (CStep.drain [] ("A", get_media_details (probeW "A")) [] true false none)
